import Mathlib

/-!
Verification of the lyrics-retrieval / URL-reconciliation pipeline and the
explicit-content scorer of `dataset_creation.py` (with the sibling files
`data_collection.py` and `potential_dataset_problems.py` as context).

Strings are modelled as Lean `String` / `List Char`; Python string methods
(`str.lower`, `str.split(" ")`, `"-".join`, `str.capitalize`, `str.strip`,
`re.sub` over a punctuation character class) are embedded character by
character on `List Char`.  Network effects (`requests.get` plus
BeautifulSoup parsing) are modelled by two oracle parameters:

* `fetchIndexPage : String → Option (List String)` — fetching an album
  overview URL and running `find_lyric_urls` on it; `none` means the fetch
  raised, `some urls` is the list of per-track lyric-page URLs extracted.
* `fetchTrackText : String → Option String` — one call of
  `retrieve_lyrics` on a track URL; `none` means the fetch raised,
  `some s` the string it returned.

Everything downstream of these oracles is translated directly from the
Python source.
-/

/-- Python's `string.punctuation`:
`!"#$%&'()*+,-./:;<=>?@[\]^_`{|}~` (32 ASCII characters). -/
def pyPunctuation : String := "!\"#$%&\x27()*+,-./:;<=>?@[\\]^_\x60\x7b|\x7d~"

/-- Membership of a character in `string.punctuation`, as used both by the
character class `"[" + string.punctuation + "]"` of the `re.sub` calls and by
the `any(char in string.punctuation for char in s)` tests. -/
def isPunct (c : Char) : Bool := pyPunctuation.data.contains c

/-- Whitespace characters removed by Python's `str.strip()` (the ASCII ones;
the pipeline's inputs are processed bytewise in the source). -/
def isPySpace (c : Char) : Bool :=
  c = ' ' || c = '\t' || c = '\n' || c = '\r' || c = '\x0b' || c = '\x0c'

/-- Translation of `re.sub("[" + string.punctuation + "]", " ", s)`
(dataset_creation.py lines 106-107): every punctuation character is replaced
by a single blank. -/
def blankPunct (cs : List Char) : List Char :=
  cs.map (fun c => if isPunct c then ' ' else c)

/-- Translation of `re.sub("[" + string.punctuation + "]", "", s)`
(dataset_creation.py lines 156-157): every punctuation character is deleted. -/
def delPunct (cs : List Char) : List Char :=
  cs.filter (fun c => !(isPunct c))

/-- Translation of `re.sub("&", "and", s)` (dataset_creation.py lines
153-154). -/
def ampToAnd (cs : List Char) : List Char :=
  cs.flatMap (fun c => if c = '&' then ['a', 'n', 'd'] else [c])

/-- Translation of Python `str.strip()`: drop whitespace from both ends. -/
def pyStrip (cs : List Char) : List Char :=
  (((cs.dropWhile isPySpace).reverse).dropWhile isPySpace).reverse

/-- Translation of Python `str.lower()` (ASCII model, `Char.toLower` per
character). -/
def pyLower (cs : List Char) : List Char := cs.map Char.toLower

/-- Translation of Python `str.capitalize()`: first character uppercased,
all remaining characters lowercased. -/
def pyCapitalize : List Char → List Char
  | [] => []
  | c :: rest => Char.toUpper c :: rest.map Char.toLower

/-- Translation of Python `s.split(sep)` for a one-character separator with
an explicit argument: split at every occurrence, keeping empty pieces, so
`"a--b".split("-") = ["a", "", "b"]` and `"".split("-") = [""]`. -/
def splitOnChar (sep : Char) : List Char → List (List Char)
  | [] => [[]]
  | c :: rest =>
    match splitOnChar sep rest with
    | [] => [[]]
    | t :: ts => if c = sep then [] :: t :: ts else (c :: t) :: ts

/-- Translation of Python `sep.join(pieces)` for a one-character separator. -/
def joinSep (sep : Char) : List (List Char) → List Char
  | [] => []
  | [t] => t
  | t :: ts => t ++ sep :: joinSep sep ts

/-- Policy A slug (dataset_creation.py lines 106-113, used by
`add_album_lyrics`): replace punctuation with blanks, lowercase, split on
`" "`, join with `"-"`, capitalize the first character of the join. -/
def slugAChars (cs : List Char) : List Char :=
  pyCapitalize (joinSep '-' (splitOnChar ' ' (pyLower (blankPunct cs))))

/-- Policy B slug (dataset_creation.py lines 153-163, used by
`add_lyrics_normal_alternate`): replace `&` with `and`, delete the remaining
punctuation, strip, lowercase, split on `" "`, join with `"-"`, capitalize
the first character of the join. -/
def slugBChars (cs : List Char) : List Char :=
  pyCapitalize (joinSep '-' (splitOnChar ' ' (pyLower (pyStrip (delPunct (ampToAnd cs))))))

/-- URL synthesized by `add_album_lyrics` (dataset_creation.py line 116). -/
def policyA_url (artist title : String) : String :=
  "http://genius.com/albums/" ++ String.mk (slugAChars artist.data)
    ++ "/" ++ String.mk (slugAChars title.data)

/-- URL synthesized by `add_lyrics_normal_alternate` (dataset_creation.py
line 166). -/
def policyB_url (artist title : String) : String :=
  "http://genius.com/albums/" ++ String.mk (slugBChars artist.data)
    ++ "/" ++ String.mk (slugBChars title.data)

/-- C7: for title `"DAMN."` and artist `"Kendrick Lamar"`, Policy A produces
a title slug ending in a trailing hyphen, while Policy B produces exactly
`http://genius.com/albums/Kendrick-lamar/Damn`, the period stripped with no
trailing artifact. -/
theorem damn_policyA_trailing_hyphen_policyB_clean :
    policyA_url "Kendrick Lamar" "DAMN."
        = "http://genius.com/albums/Kendrick-lamar/Damn-"
      ∧ (slugAChars "DAMN.".data).getLast? = some '-'
      ∧ policyB_url "Kendrick Lamar" "DAMN."
        = "http://genius.com/albums/Kendrick-lamar/Damn" := by
  refine ⟨?_, ?_, ?_⟩ <;> decide

/-- Translation of the per-track scraping loop shared by the resolvers
(dataset_creation.py lines 130-132, 178-180, 214-216):

    for url in urls:
        lyrics = retrieve_lyrics(url)
        results.append(lyrics)

inside a `try:` block. `retrieve_lyrics` performs an uncaught `requests.get`,
so a `none` from the oracle aborts the loop (the exception propagates to the
enclosing handler), keeping what was appended so far.  Returns the
accumulated results plus a flag recording whether the loop aborted. -/
def trackLoop (fetchTrackText : String → Option String) :
    List String → List String → List String × Bool
  | [], acc => (acc, false)
  | u :: rest, acc =>
    match fetchTrackText u with
    | none => (acc, true)
    | some s => trackLoop fetchTrackText rest (acc ++ [s])

/-- Translation of the shared `try/except` body of
`add_lyrics_normal_alternate` and `add_lyrics_hardcode_alternate`
(dataset_creation.py lines 168-187 and 203-223, identical text):

    results = []
    num_tracks = 0
    try:
        ... urls = find_lyric_urls(soup)
        for url in urls: results.append(retrieve_lyrics(url))
        num_tracks = len(urls)
    except:
        pass
    return results, num_tracks

`num_tracks = len(urls)` executes only after the loop completes, so on a
mid-loop abort the partial `results` are returned with `num_tracks` still 0. -/
def scrape_album (fetchIndexPage : String → Option (List String))
    (fetchTrackText : String → Option String) (genius_url : String) :
    List String × Nat :=
  match fetchIndexPage genius_url with
  | none => ([], 0)
  | some urls =>
    let r := trackLoop fetchTrackText urls []
    (r.1, if r.2 then 0 else urls.length)

/-- Translation of `add_lyrics_normal_alternate(artist, title)`
(dataset_creation.py lines 152-187): Policy B URL synthesis followed by the
shared scraping body. -/
def add_lyrics_normal_alternate (fetchIndexPage : String → Option (List String))
    (fetchTrackText : String → Option String) (artist title : String) :
    List String × Nat :=
  scrape_album fetchIndexPage fetchTrackText (policyB_url artist title)

/-- Translation of `add_lyrics_hardcode_alternate(genius_url)`
(dataset_creation.py lines 203-223): the shared scraping body on a caller
supplied URL. -/
def add_lyrics_hardcode_alternate (fetchIndexPage : String → Option (List String))
    (fetchTrackText : String → Option String) (genius_url : String) :
    List String × Nat :=
  scrape_album fetchIndexPage fetchTrackText genius_url

/-- Album record (dataset_creation.py lines 91-101 and 234-240).  The five
metadata fields are kept as the free-text strings they are in the frame;
`num_lyric_tracks` is `Option Nat` because `add_album_lyrics` only creates
the key when the index-page fetch succeeds (line 127 sits inside the `try:`). -/
structure Album where
  title : String
  artist : String
  metascore : String
  user_score : String
  release_date : String
  lyrics : List String := []
  num_lyric_tracks : Option Nat := none
deriving DecidableEq, Repr

/-- Translation of one iteration of `add_album_lyrics` (dataset_creation.py
lines 103-135): Policy A URL, `album["lyrics"] = []` before the `try:`, then
`num_lyric_tracks = len(urls)` assigned BEFORE the per-track loop, whose
abort is swallowed by `except: continue`. -/
def add_album_lyrics_step (fetchIndexPage : String → Option (List String))
    (fetchTrackText : String → Option String) (album : Album) : Album :=
  let genius_url := policyA_url album.artist album.title
  match fetchIndexPage genius_url with
  | none => { album with lyrics := [] }
  | some urls =>
    let r := trackLoop fetchTrackText urls []
    { album with lyrics := r.1, num_lyric_tracks := some urls.length }

/-- Translation of `add_album_lyrics(albums)` over its whole input list. -/
def add_album_lyrics (fetchIndexPage : String → Option (List String))
    (fetchTrackText : String → Option String) (albums : List Album) : List Album :=
  albums.map (add_album_lyrics_step fetchIndexPage fetchTrackText)

/-- Oracle: every index page yields the two track URLs. -/
def fetchIndexTwoTracks : String → Option (List String) := fun _ => some ["track1", "track2"]

/-- Oracle: fetching `track1` succeeds, any other track fetch raises. -/
def fetchTrackFailSecond : String → Option String :=
  fun u => if u = "track1" then some "la la" else none

/-- Oracle: every index-page fetch raises. -/
def fetchIndexRaises : String → Option (List String) := fun _ => none

/-- Oracle: every track fetch raises. -/
def fetchTrackRaises : String → Option String := fun _ => none

/-- Oracle: every index page yields one track URL. -/
def fetchIndexOneTrack : String → Option (List String) := fun _ => some ["track1"]

/-- Oracle: every track fetch succeeds. -/
def fetchTrackOk : String → Option String := fun _ => some "some lyrics"

theorem trackLoop_length_le (fetchTrackText : String → Option String) :
    ∀ (urls acc : List String),
      (trackLoop fetchTrackText urls acc).1.length ≤ acc.length + urls.length
  | [], acc => by simp [trackLoop]
  | u :: rest, acc => by
    unfold trackLoop
    cases h : fetchTrackText u with
    | none => simp
    | some s =>
      have := trackLoop_length_le fetchTrackText rest (acc ++ [s])
      simpa [Nat.add_comm, Nat.add_left_comm, Nat.add_assoc] using this

theorem trackLoop_complete_length (fetchTrackText : String → Option String) :
    ∀ (urls acc : List String),
      (trackLoop fetchTrackText urls acc).2 = false →
      (trackLoop fetchTrackText urls acc).1.length = acc.length + urls.length
  | [], acc => by simp [trackLoop]
  | u :: rest, acc => by
    unfold trackLoop
    cases h : fetchTrackText u with
    | none => simp
    | some s =>
      intro hc
      have := trackLoop_complete_length fetchTrackText rest (acc ++ [s]) hc
      simpa [Nat.add_comm, Nat.add_left_comm, Nat.add_assoc] using this

/-- C1 (counterexample): with an index page listing two tracks where the
first track fetch succeeds and the second raises, the alternate resolver
returns the partial result `(["la la"], 0)`, not `([], 0)`. -/
theorem normal_alternate_partial_on_midloop_failure :
    add_lyrics_normal_alternate fetchIndexTwoTracks fetchTrackFailSecond
        "Artist" "Title" = (["la la"], 0)
      ∧ ((["la la"], 0) : List String × Nat) ≠ (([] : List String), 0) := by
  refine ⟨?_, by decide⟩
  decide

/-- C1 (amended): if the index-page fetch raises, both alternate resolvers
return `([], 0)`; but if a per-track fetch raises mid-loop, they return the
lyrics accumulated before the failure paired with `num_tracks = 0` — a
partial result, since `num_tracks = len(urls)` is only assigned after the
loop completes. -/
theorem resolver_failure_suppression :
    (∀ (fI : String → Option (List String)) (fT : String → Option String)
        (artist title : String), fI (policyB_url artist title) = none →
        add_lyrics_normal_alternate fI fT artist title = ([], 0))
    ∧ (∀ (fI : String → Option (List String)) (fT : String → Option String)
        (url : String), fI url = none →
        add_lyrics_hardcode_alternate fI fT url = ([], 0))
    ∧ (∀ (fI : String → Option (List String)) (fT : String → Option String)
        (url : String) (urls : List String), fI url = some urls →
        (trackLoop fT urls []).2 = true →
        add_lyrics_hardcode_alternate fI fT url = ((trackLoop fT urls []).1, 0))
    ∧ (∀ (fI : String → Option (List String)) (fT : String → Option String)
        (artist title : String) (urls : List String),
        fI (policyB_url artist title) = some urls →
        (trackLoop fT urls []).2 = true →
        add_lyrics_normal_alternate fI fT artist title = ((trackLoop fT urls []).1, 0)) := by
  refine ⟨?_, ?_, ?_, ?_⟩
  · intro fI fT artist title h
    simp [add_lyrics_normal_alternate, scrape_album, h]
  · intro fI fT url h
    simp [add_lyrics_hardcode_alternate, scrape_album, h]
  · intro fI fT url urls h habort
    simp [add_lyrics_hardcode_alternate, scrape_album, h, habort]
  · intro fI fT artist title urls h habort
    simp [add_lyrics_normal_alternate, scrape_album, h, habort]

/-- C1 (witness): the amended theorem applied at concrete oracles, covering
the raising index fetch and the mid-loop track failure. -/
theorem resolver_failure_suppression_witness :
    add_lyrics_normal_alternate fetchIndexRaises fetchTrackRaises "Artist" "Title" = ([], 0)
    ∧ add_lyrics_hardcode_alternate fetchIndexRaises fetchTrackRaises "http://u" = ([], 0)
    ∧ add_lyrics_hardcode_alternate fetchIndexTwoTracks fetchTrackFailSecond "http://u"
        = ((trackLoop fetchTrackFailSecond ["track1", "track2"] []).1, 0)
    ∧ add_lyrics_normal_alternate fetchIndexTwoTracks fetchTrackFailSecond "Artist" "Title"
        = ((trackLoop fetchTrackFailSecond ["track1", "track2"] []).1, 0) :=
  ⟨resolver_failure_suppression.1 _ _ _ _ rfl,
   resolver_failure_suppression.2.1 _ _ _ rfl,
   resolver_failure_suppression.2.2.1 _ _ _ _ rfl (by decide),
   resolver_failure_suppression.2.2.2 _ _ _ _ _ rfl (by decide)⟩

/-- C2 (counterexample): after a mid-loop per-track failure the hardcoded
resolver returns one lyric string with `num_tracks = 0`, so
`len(lyrics) <= num_tracks` fails. -/
theorem hardcode_alternate_len_gt_num_tracks :
    ¬ ((add_lyrics_hardcode_alternate fetchIndexTwoTracks fetchTrackFailSecond
          "http://u").1.length
        ≤ (add_lyrics_hardcode_alternate fetchIndexTwoTracks fetchTrackFailSecond
          "http://u").2) := by
  decide

/-- C2 (amended): `len(lyrics) <= num_tracks` holds for every
`add_album_lyrics` record whose index fetch succeeded (the count is assigned
before the per-track loop), and for the alternate resolvers on every run in
which no per-track fetch fails (then with equality) or the index fetch
fails; but a per-track failure mid-loop in the alternates leaves
`num_tracks = 0` under a non-empty partial lyrics list. -/
theorem resolver_len_le_num_tracks_cases :
    (∀ (fI : String → Option (List String)) (fT : String → Option String)
        (url : String) (urls : List String), fI url = some urls →
        (trackLoop fT urls []).2 = false →
        (add_lyrics_hardcode_alternate fI fT url).1.length
          = (add_lyrics_hardcode_alternate fI fT url).2)
    ∧ (∀ (fI : String → Option (List String)) (fT : String → Option String)
        (artist title : String) (urls : List String),
        fI (policyB_url artist title) = some urls →
        (trackLoop fT urls []).2 = false →
        (add_lyrics_normal_alternate fI fT artist title).1.length
          = (add_lyrics_normal_alternate fI fT artist title).2)
    ∧ (∀ (fI : String → Option (List String)) (fT : String → Option String)
        (url : String), fI url = none →
        (add_lyrics_hardcode_alternate fI fT url).1.length
          ≤ (add_lyrics_hardcode_alternate fI fT url).2)
    ∧ (∀ (fI : String → Option (List String)) (fT : String → Option String)
        (album : Album) (urls : List String),
        fI (policyA_url album.artist album.title) = some urls →
        (add_album_lyrics_step fI fT album).num_lyric_tracks = some urls.length
          ∧ (add_album_lyrics_step fI fT album).lyrics.length ≤ urls.length) := by
  refine ⟨?_, ?_, ?_, ?_⟩
  · intro fI fT url urls h hdone
    have hl := trackLoop_complete_length fT urls [] hdone
    simp [add_lyrics_hardcode_alternate, scrape_album, h, hdone]
    simpa using hl
  · intro fI fT artist title urls h hdone
    have hl := trackLoop_complete_length fT urls [] hdone
    simp [add_lyrics_normal_alternate, scrape_album, h, hdone]
    simpa using hl
  · intro fI fT url h
    simp [add_lyrics_hardcode_alternate, scrape_album, h]
  · intro fI fT album urls h
    have hl := trackLoop_length_le fT urls []
    refine ⟨?_, ?_⟩ <;> simp [add_album_lyrics_step, h]
    simpa using hl

/-- Translation of `any(char in string.punctuation for char in s)`
(dataset_creation.py line 313). -/
def hasPunctStr (s : String) : Bool := s.data.any isPunct

/-- Selection predicate of Pass 1 (dataset_creation.py lines 311-314): the
row's lyrics list is empty and title or artist contains punctuation. -/
def pass1Selected (a : Album) : Bool :=
  (a.lyrics.length == 0) && (hasPunctStr a.title || hasPunctStr a.artist)

/-- Selection predicate building `error_title_artist_mapping3`
(dataset_creation.py lines 505-507): `len(row["lyrics"]) == 2`.  At this
point of the pipeline `row["lyrics"]` is a Python list of per-track lyric
strings, so this selects albums with exactly two lyric tracks. -/
def pass3Selected (a : Album) : Bool := a.lyrics.length == 2

/-- Column 0 of `albums_df`.  The frame is built by
`pandas.DataFrame(all_albums)` from dicts with keys title, metascore,
artist, user_score, release_date, lyrics, num_lyric_tracks; under the
alphabetical column ordering pandas applied to dict keys when this pipeline
ran, the columns are artist, lyrics, metascore, num_lyric_tracks,
release_date, title, user_score.  This ordering is the only one under which
the positional accesses of the repository are coherent: `iloc[i, 0]` /
`iloc[i, 5]` here (line 319) and `iloc[i, 0]` / `iloc[i, 4]` /
`iloc[i, 1]` in data_collection.py (lines 377, 394, with its 6-column
frame) all read artist / title / lyrics exactly under it. -/
def iloc_col0 (a : Album) : String := a.artist

/-- Column 5 of `albums_df` (see `iloc_col0`): the title. -/
def iloc_col5 (a : Album) : String := a.title

/-- Overwriting a row's `lyrics` and `num_lyric_tracks` with a resolver
result tuple (dataset_creation.py lines 320-321, 496-497, 625-626). -/
def updateRow (r : List String × Nat) (a : Album) : Album :=
  { a with lyrics := r.1, num_lyric_tracks := some r.2 }

/-- One iteration of the retry loops: read row `i` of the frame, overwrite
its `lyrics` / `num_lyric_tracks` with the result of `resolve` applied to
that row.  Out-of-range indices leave the frame unchanged (they do not
occur in the pipeline). -/
def applyResolverAt (resolve : Album → List String × Nat)
    (df : List Album) (i : Nat) : List Album :=
  match df.get? i with
  | some a => df.set i (updateRow (resolve a) a)
  | none => df

/-- Indices collected by an `iterrows` scan under a row predicate, in frame
order — the keys of the `error_title_artist_mapping*` dicts. -/
def selectedIdx (p : Album → Bool) (df : List Album) : List Nat :=
  (List.range df.length).filter (fun i => ((df.get? i).map p).getD false)

/-- Translation of Pass 1 of the reconciliation cascade (dataset_creation.py
lines 309-321): build `error_title_artist_mapping` from the frame, then for
each collected index run `add_lyrics_normal_alternate(albums_df.iloc[i, 0],
albums_df.iloc[i, 5])` (artist, title; see `iloc_col0`) and overwrite that
row's `lyrics` and `num_lyric_tracks`. -/
def pass1 (fetchIndexPage : String → Option (List String))
    (fetchTrackText : String → Option String) (df : List Album) : List Album :=
  (selectedIdx pass1Selected df).foldl
    (applyResolverAt (fun a =>
      add_lyrics_normal_alternate fetchIndexPage fetchTrackText
        (iloc_col0 a) (iloc_col5 a))) df

/-- Lookup in a position-keyed manual override map (`i in
additional_url_mappings` / `additional_url_mappings[i]`). -/
def lookupUrl (m : List (Nat × String)) (i : Nat) : Option String :=
  (m.find? (fun p => p.1 == i)).map Prod.snd

/-- One iteration of the manual-override loops (dataset_creation.py lines
622-626): if index `i` has an override URL, scrape it with
`add_lyrics_hardcode_alternate` and overwrite row `i`. -/
def applyHardcodeAt (fetchIndexPage : String → Option (List String))
    (fetchTrackText : String → Option String) (m : List (Nat × String))
    (df : List Album) (i : Nat) : List Album :=
  match lookupUrl m i with
  | some url =>
    applyResolverAt
      (fun _ => add_lyrics_hardcode_alternate fetchIndexPage fetchTrackText url) df i
  | none => df

/-- The secondary manual override map `additional_url_mappings`
(dataset_creation.py lines 509-618), keyed by row position. -/
def additional_url_mappings : List (Nat × String) := [
  (17, "https://genius.com/albums/Freddie-gibbs-and-madlib/Bandana"),
  (41, "https://genius.com/albums/Nilufer-yanya/Miss-universe"),
  (67, "https://genius.com/albums/Danny-brown/Uknowhatimsayin"),
  (139, "https://genius.com/albums/Dawn-richard/New-breed"),
  (156, "https://genius.com/albums/Nerija/Blume"),
  (172, "https://genius.com/albums/Van-morrison/Three-chords-the-truth"),
  (207, "https://genius.com/albums/Karen-o-and-danger-mouse/Lux-prima"),
  (292, "https://genius.com/albums/Calexico-and-iron-and-wine/Years-to-burn"),
  (413, "https://genius.com/albums/Czarface-and-ghostface-killah/Czarface-meets-ghostface"),
  (435, "https://genius.com/albums/Francis-lung/A-dream-is-u"),
  (462, "https://genius.com/albums/Celine-dion/Courage-deluxe-edition"),
  (463, "https://genius.com/albums/Belle-and-sebastian/Days-of-the-bagnold-summer"),
  (470, "https://genius.com/albums/Billy-corgan/Cotillions"),
  (499, "https://genius.com/albums/Nas/The-lost-tapes-2"),
  (525, "https://genius.com/albums/Janelle-monae/Dirty-computer"),
  (542, "https://genius.com/albums/Angelique-kidjo/Remain-in-light"),
  (624, "https://genius.com/albums/The-bevis-frond/We-re-your-friends-man"),
  (632, "https://genius.com/albums/Mark-lanegan-and-duke-garwood/With-animals"),
  (728, "https://genius.com/albums/Aidan-moffat-and-rm-hubbert/Here-lies-the-body"),
  (733, "https://genius.com/albums/Aisha-devi/Dna-feelings"),
  (760, "https://genius.com/albums/Meg-baird-and-mary-lattimore/Ghost-forests"),
  (828, "https://genius.com/albums/Vessel-uk/Queen-of-golden-dogs"),
  (849, "https://genius.com/albums/Polica/Music-for-the-long-emergency"),
  (897, "https://genius.com/albums/Susanna-wallumrd/Go-dig-my-grave"),
  (917, "https://genius.com/albums/Dungen-and-woods/Myths-003"),
  (1003, "https://genius.com/albums/M/Forever-neverland"),
  (1017, "https://genius.com/albums/Neil-and-liam-finn/Lightsleeper"),
  (1034, "https://genius.com/albums/Ty-segall-and-white-fence/Joy"),
  (1035, "https://genius.com/albums/Jeff-goldblum-and-the-mildred-snitzer-orchestra/The-capitol-studios-sessions"),
  (1053, "https://genius.com/albums/Gengahr/Where-wildness-grows"),
  (1092, "https://genius.com/albums/Rapsody/Laila-s-wisdom"),
  (1093, "https://genius.com/albums/Oxbow/Thin-black-duke"),
  (1127, "https://genius.com/albums/Karine-polwart-with-pippa-murphy/A-pocket-of-wind-resistance"),
  (1155, "https://genius.com/albums/Mark-lanegan/Gargoyle"),
  (1170, "https://genius.com/albums/Bjork/Utopia"),
  (1185, "https://genius.com/albums/The-body-and-full-of-hell/Ascending-a-mountain-of-heavy-light"),
  (1294, "https://genius.com/albums/Susanne-sundfr/Music-for-people-in-trouble"),
  (1316, "https://genius.com/albums/Courtney-barnett-and-kurt-vile/Lotta-sea-lice"),
  (1360, "https://genius.com/albums/21-savage-offset-and-metro-boomin/Without-warning"),
  (1397, "https://genius.com/albums/Pulled-apart-by-horses/Pulled-apart-by-horses"),
  (1423, "https://genius.com/albums/Sltface/Try-not-to-freak-out"),
  (1530, "https://genius.com/albums/The-charlatans/Different-days"),
  (1539, "https://genius.com/albums/Camille/Oui"),
  (1541, "https://genius.com/albums/Oh-sees/Memory-of-a-cut-off-head"),
  (1562, "https://genius.com/albums/The-flamin-groovies/Fantastic-plastic"),
  (1569, "https://genius.com/albums/Lindsey-buckingham-and-christine-mcvie/Lindsey-buckingham-christine-mcvie"),
  (1572, "https://genius.com/albums/Sufjan-stevens-bryce-dessner-nico-muhly-james-mcalister/Planetarium"),
  (1619, "https://genius.com/albums/Chilly-gonzales-and-jarvis-cocker/Room-29"),
  (1631, "https://genius.com/albums/Glen-campbell/Adios"),
  (1646, "https://genius.com/albums/Noveller/A-pink-sunset-for-no-one"),
  (1648, "https://genius.com/albums/Chaz-bundick-meets-the-mattson-2/Star-stuff"),
  (1657, "https://genius.com/albums/Melvins/A-walk-with-love-death"),
  (1681, "https://genius.com/albums/Maximo-park/Risk-to-exist"),
  (1694, "https://genius.com/albums/The-isley-brothers-and-santana/Power-of-peace"),
  (1701, "https://genius.com/albums/Death-from-above-1979/Outrage-is-now"),
  (1721, "https://genius.com/albums/The-dears/Times-infinity-volume-two"),
  (1731, "https://genius.com/albums/Amanda-palmer-and-edward-ka-spel/I-can-spin-a-rainbow"),
  (1748, "https://genius.com/albums/Beyonce/Lemonade"),
  (1762, "https://genius.com/albums/Nails-metal/You-will-never-be-one-of-us"),
  (1773, "https://genius.com/albums/Teho-teardo-and-blixa-bargeld/Nerissimo"),
  (1824, "https://genius.com/albums/The-rolling-stones/Blue-lonesome"),
  (1833, "https://genius.com/albums/Hamilton-leithauser-rostam/I-had-a-dream-that-you-were-mine"),
  (1918, "https://genius.com/albums/Ian-hunter-and-the-rant-band/Fingers-crossed"),
  (1949, "https://genius.com/albums/Sam-beam-and-jesca-hoop/Love-letter-for-fire"),
  (1980, "https://genius.com/albums/Johann-johannsson/Orphee"),
  (1985, "https://genius.com/albums/Rokia-traore/Ne-so"),
  (2069, "https://genius.com/albums/Pete-astor/Spilt-milk"),
  (2086, "https://genius.com/albums/Mica-levi-and-oliver-coates/Remain-calm"),
  (2097, "https://genius.com/albums/The-lemon-twigs/Do-hollywood"),
  (2116, "https://genius.com/albums/Susanna-wallumrd/Triangle"),
  (2150, "https://genius.com/albums/The-invisible-uk/Patience"),
  (2192, "https://genius.com/albums/Gggs/Gggs"),
  (2194, "https://genius.com/albums/Dean-ween-group/The-deaner-album"),
  (2199, "https://genius.com/albums/Lapsley/Long-way-home"),
  (2250, "https://genius.com/albums/Polica/United-crushers"),
  (2256, "https://genius.com/albums/Jack-and-amanda-palmer/You-got-me-singing"),
  (2271, "https://genius.com/albums/Emeli-sande/Long-live-the-angels"),
  (2298, "https://genius.com/albums/Santigold/99"),
  (2318, "https://genius.com/albums/The-claypool-lennon-delirium/The-monolith-of-phobos"),
  (2345, "https://genius.com/albums/Hlos/Full-circle"),
  (2351, "https://genius.com/albums/Dalek/Asphalt-for-eden"),
  (2353, "https://genius.com/albums/Partynextdoor/Partynextdoor-3-p3"),
  (2370, "https://genius.com/albums/Cheena/Spend-the-night-with"),
  (2371, "https://genius.com/albums/Moonface-and-siinai/My-best-human-face"),
  (2402, "https://genius.com/albums/Sting/57th-9th"),
  (2417, "https://genius.com/albums/Trentemller/Fixion"),
  (2499, "https://genius.com/albums/Susanne-sundfr/Ten-love-songs"),
  (2503, "https://genius.com/albums/Bjork/Vulnicura"),
  (2570, "https://genius.com/albums/The-pre-new/The-male-eunuch"),
  (2582, "https://genius.com/albums/Colin-stetson-and-sarah-neufeld/Never-were-the-way-she-was"),
  (2619, "https://genius.com/albums/Motorhead/Bad-magic"),
  (2628, "https://genius.com/albums/The-charlatans/Modern-nature"),
  (2645, "https://genius.com/albums/Dan-mangan-blacksmith/Club-meds"),
  (2673, "https://genius.com/albums/Membranes/Dark-matter-dark-energy"),
  (2753, "https://genius.com/albums/Kwabs/Love-war"),
  (2759, "https://genius.com/albums/Shining-nor/International-blackjazz-society"),
  (2806, "https://genius.com/albums/Badbadnotgood-and-ghostface-killah/Sour-soul"),
  (2840, "https://genius.com/albums/Emmylou-harris-and-rodney-crowell/The-traveling-kind"),
  (2896, "https://genius.com/albums/Boosie-badazz/Touchdown-2-cause-hell"),
  (2932, "https://genius.com/albums/Merle-haggard-and-willie-nelson/Django-jimmie"),
  (2957, "https://genius.com/albums/Six-organs-of-admittance/Hexadic"),
  (2990, "https://genius.com/albums/The-d/Shake-shook-shaken"),
  (3036, "https://genius.com/albums/The-twilight-sad/Oran-mor-session"),
  (3047, "https://genius.com/albums/Jack-u/Skrillex-and-diplo-present-jack-u"),
  (3085, "https://genius.com/albums/Boots/Aquria"),
  (3104, "https://genius.com/albums/Venom-band/From-the-very-depths"),
  (3113, "https://genius.com/albums/Carl-barat-and-the-jackals/Let-it-reign"),
  (3121, "https://genius.com/albums/Seth-avett-and-jessica-lea-mayfield/Seth-avett-jessica-lea-mayfield-sing-elliott-smith")
]

/-- Translation of Pass 3 of the cascade (dataset_creation.py lines
503-507, 622-626): build `error_title_artist_mapping3` with the
`len(row["lyrics"]) == 2` scan, then apply the hardcoded override to each
collected index that has an entry in `additional_url_mappings`. -/
def pass3 (fetchIndexPage : String → Option (List String))
    (fetchTrackText : String → Option String) (df : List Album) : List Album :=
  (selectedIdx pass3Selected df).foldl
    (applyHardcodeAt fetchIndexPage fetchTrackText additional_url_mappings) df

theorem applyResolverAt_get? (resolve : Album → List String × Nat)
    (df : List Album) (i j : Nat) :
    (applyResolverAt resolve df i).get? j
      = if i = j then (df.get? i).map (fun a => updateRow (resolve a) a)
        else df.get? j := by
  unfold applyResolverAt
  cases h : df.get? i with
  | none =>
    have hge := List.get?_eq_none.mp h
    by_cases hij : i = j
    · subst hij
      simp [h, hge]
    · simp [hij]
  | some a =>
    have hlen : i < df.length := (List.get?_eq_some.mp h).1
    by_cases hij : i = j
    · subst hij
      simp [List.get?_set, h, hlen]
    · simp [List.get?_set, hij]

theorem applyHardcodeAt_get? (fI : String → Option (List String))
    (fT : String → Option String) (m : List (Nat × String))
    (df : List Album) (i j : Nat) :
    (applyHardcodeAt fI fT m df i).get? j
      = if i = j then
          (df.get? i).map (fun a =>
            match lookupUrl m i with
            | some url => updateRow (add_lyrics_hardcode_alternate fI fT url) a
            | none => a)
        else df.get? j := by
  unfold applyHardcodeAt
  cases hm : lookupUrl m i with
  | none =>
    by_cases hij : i = j
    · subst hij
      cases df.get? i <;> simp
    · simp [hij]
  | some url =>
    rw [applyResolverAt_get?]

theorem foldl_pointwise_get? (st : List Album → Nat → List Album)
    (uf : Nat → Album → Album)
    (hst : ∀ df i j, (st df i).get? j
      = if i = j then (df.get? i).map (uf i) else df.get? j) :
    ∀ (l : List Nat), l.Nodup → ∀ (df : List Album) (j : Nat),
      (l.foldl st df).get? j
        = if j ∈ l then (df.get? j).map (uf j) else df.get? j := by
  intro l
  induction l with
  | nil => intro _ df j; simp
  | cons i rest ih =>
    intro hnd df j
    have hrest : rest.Nodup := (List.nodup_cons.mp hnd).2
    have hi : i ∉ rest := (List.nodup_cons.mp hnd).1
    have hstep := hst df i j
    rw [List.foldl_cons, ih hrest (st df i) j]
    by_cases hjr : j ∈ rest
    · have hij : i ≠ j := fun h => hi (h ▸ hjr)
      rw [if_pos hjr, if_pos (List.mem_cons_of_mem i hjr), hstep, if_neg hij]
    · by_cases hij : i = j
      · subst hij
        rw [if_neg hjr, hstep, if_pos rfl, if_pos (List.mem_cons_self i rest)]
      · have hnc : j ∉ i :: rest := by
          intro hc
          rcases List.mem_cons.mp hc with h1 | h2
          · exact hij h1.symm
          · exact hjr h2
        rw [if_neg hjr, hstep, if_neg hij, if_neg hnc]

theorem selectedIdx_nodup (p : Album → Bool) (df : List Album) :
    (selectedIdx p df).Nodup :=
  (List.nodup_range df.length).filter _

theorem mem_selectedIdx (p : Album → Bool) (df : List Album) (j : Nat)
    (a : Album) (hj : df.get? j = some a) :
    j ∈ selectedIdx p df ↔ p a = true := by
  have hlen : j < df.length := (List.get?_eq_some.mp hj).1
  obtain ⟨h1, h2⟩ := List.get?_eq_some.mp hj
  rw [List.get_eq_getElem] at h2
  unfold selectedIdx
  rw [List.mem_filter, List.mem_range]
  simp [hj, hlen, h2]

theorem pass1Selected_iff (a : Album) :
    pass1Selected a = true
      ↔ a.lyrics = [] ∧ (hasPunctStr a.title = true ∨ hasPunctStr a.artist = true) := by
  simp [pass1Selected, List.length_eq_zero]

/-- C4: Pass 1 applies `add_lyrics_normal_alternate` (the Policy-B resolver)
to exactly the rows with empty lyrics and punctuation in title or artist,
called on that row's own artist and title, overwriting only that row's
`lyrics` and `num_lyric_tracks` (even with an empty result) and leaving the
five metadata fields of every row unchanged. -/
theorem pass1_policyB_retry_frame (fI : String → Option (List String))
    (fT : String → Option String) (df : List Album) (j : Nat) (a : Album)
    (hj : df.get? j = some a) :
    ∃ a2, (pass1 fI fT df).get? j = some a2
      ∧ a2.title = a.title ∧ a2.artist = a.artist ∧ a2.metascore = a.metascore
      ∧ a2.user_score = a.user_score ∧ a2.release_date = a.release_date
      ∧ (pass1Selected a = true →
          a2.lyrics = (add_lyrics_normal_alternate fI fT a.artist a.title).1
          ∧ a2.num_lyric_tracks = some (add_lyrics_normal_alternate fI fT a.artist a.title).2)
      ∧ (pass1Selected a = false → a2 = a)
      ∧ (pass1Selected a = true
          ↔ a.lyrics = [] ∧ (hasPunctStr a.title = true ∨ hasPunctStr a.artist = true)) := by
  have hfold := foldl_pointwise_get?
    (applyResolverAt (fun b =>
      add_lyrics_normal_alternate fI fT (iloc_col0 b) (iloc_col5 b)))
    (fun _ b => updateRow (add_lyrics_normal_alternate fI fT (iloc_col0 b) (iloc_col5 b)) b)
    (fun df' i k => applyResolverAt_get? _ df' i k)
    (selectedIdx pass1Selected df) (selectedIdx_nodup _ df) df j
  rw [pass1, hfold]
  cases hsel : pass1Selected a with
  | true =>
    rw [if_pos ((mem_selectedIdx pass1Selected df j a hj).mpr hsel), hj]
    refine ⟨_, rfl, rfl, rfl, rfl, rfl, rfl, fun _ => ⟨rfl, rfl⟩, ?_, ?_⟩
    · intro hc
      exact absurd hc (by simp)
    · exact hsel ▸ pass1Selected_iff a
  | false =>
    rw [if_neg (fun hc => by
      have := (mem_selectedIdx pass1Selected df j a hj).mp hc
      simp [hsel] at this), hj]
    refine ⟨a, rfl, rfl, rfl, rfl, rfl, rfl, ?_, fun _ => rfl, ?_⟩
    · intro hc
      exact absurd hc (by simp)
    · exact hsel ▸ pass1Selected_iff a

/-- Album used in the Pass-1 witness: empty lyrics, punctuation in title. -/
def albumSel : Album :=
  { title := "T!", artist := "B", metascore := "80", user_score := "7.5",
    release_date := "6-Mar-20", lyrics := [], num_lyric_tracks := some 0 }

/-- C4 (witness): the Pass-1 characterization instantiated at a concrete
one-row frame and concrete oracles. -/
theorem pass1_policyB_retry_frame_witness :
    ∃ a2, (pass1 fetchIndexOneTrack fetchTrackOk [albumSel]).get? 0 = some a2
      ∧ a2.title = albumSel.title ∧ a2.artist = albumSel.artist
      ∧ a2.metascore = albumSel.metascore
      ∧ a2.user_score = albumSel.user_score
      ∧ a2.release_date = albumSel.release_date
      ∧ (pass1Selected albumSel = true →
          a2.lyrics = (add_lyrics_normal_alternate fetchIndexOneTrack fetchTrackOk
            albumSel.artist albumSel.title).1
          ∧ a2.num_lyric_tracks = some (add_lyrics_normal_alternate fetchIndexOneTrack
            fetchTrackOk albumSel.artist albumSel.title).2)
      ∧ (pass1Selected albumSel = false → a2 = albumSel)
      ∧ (pass1Selected albumSel = true
          ↔ albumSel.lyrics = []
            ∧ (hasPunctStr albumSel.title = true ∨ hasPunctStr albumSel.artist = true)) :=
  pass1_policyB_retry_frame fetchIndexOneTrack fetchTrackOk [albumSel] 0 albumSel rfl

/-- Album with exactly two lyric strings, standing for a row that already
holds non-empty lyrics from an earlier pass (row 17 is a key of
`additional_url_mappings`). -/
def twoTrackAlbum : Album :=
  { title := "Bandana", artist := "Freddie Gibbs & Madlib", metascore := "82",
    user_score := "8.0", release_date := "28-Jun-19",
    lyrics := ["la", "di"], num_lyric_tracks := some 2 }

/-- Album with no lyrics at all, standing for a row the pass should target. -/
def blankAlbum : Album :=
  { title := "t", artist := "a", metascore := "50", user_score := "tbd",
    release_date := "1-Jan-19", lyrics := [], num_lyric_tracks := some 0 }

/-- Frame with 17 lyric-less rows and, at index 17, a row holding two lyric
strings. -/
def df17 : List Album := List.replicate 17 blankAlbum ++ [twoTrackAlbum]

/-- C3 (code bug): Pass 3's scan selects rows with `len(row["lyrics"]) == 2`
— rows that HAVE two lyric tracks — so the pass overwrites a record already
holding non-empty lyrics (row 17, `additional_url_mappings[17]`), while a
record with no lyrics at all is never selected.  This contradicts the code's
own comment (dataset_creation.py lines 499-502, "albums for which no lyrics
are stored"); the `len == 2` test is the stringified-empty-list check of
potential_dataset_problems.py line 203, valid there because that file reads
lyrics back from CSV as strings. -/
theorem pass3_overwrites_two_track_album :
    pass3Selected twoTrackAlbum = true
      ∧ twoTrackAlbum.lyrics ≠ []
      ∧ pass3Selected blankAlbum = false
      ∧ (pass3 fetchIndexOneTrack fetchTrackOk df17).get? 17
          = some (updateRow (["some lyrics"], 1) twoTrackAlbum) := by
  refine ⟨by decide, by decide, by decide, ?_⟩
  decide

/-- C2 (witness): the amended length/count cases applied at concrete oracles:
a completed one-track run of each alternate resolver, a raising index fetch,
and an `add_album_lyrics` iteration with a successful index fetch. -/
theorem resolver_len_le_num_tracks_cases_witness :
    (add_lyrics_hardcode_alternate fetchIndexOneTrack fetchTrackOk "http://u").1.length
      = (add_lyrics_hardcode_alternate fetchIndexOneTrack fetchTrackOk "http://u").2
    ∧ (add_lyrics_normal_alternate fetchIndexOneTrack fetchTrackOk "Artist" "Title").1.length
      = (add_lyrics_normal_alternate fetchIndexOneTrack fetchTrackOk "Artist" "Title").2
    ∧ (add_lyrics_hardcode_alternate fetchIndexRaises fetchTrackOk "http://u").1.length
      ≤ (add_lyrics_hardcode_alternate fetchIndexRaises fetchTrackOk "http://u").2
    ∧ (add_album_lyrics_step fetchIndexOneTrack fetchTrackOk albumSel).num_lyric_tracks
        = some ["track1"].length
    ∧ (add_album_lyrics_step fetchIndexOneTrack fetchTrackOk albumSel).lyrics.length
        ≤ ["track1"].length :=
  ⟨resolver_len_le_num_tracks_cases.1 _ _ _ ["track1"] rfl (by decide),
   resolver_len_le_num_tracks_cases.2.1 _ _ _ _ ["track1"] rfl (by decide),
   resolver_len_le_num_tracks_cases.2.2.1 _ _ _ rfl,
   (resolver_len_le_num_tracks_cases.2.2.2 _ _ albumSel ["track1"] rfl).1,
   (resolver_len_le_num_tracks_cases.2.2.2 _ _ albumSel ["track1"] rfl).2⟩

/-- The explicit vocabulary `explicit_list` (dataset_creation.py lines
641-695), reproduced exactly as the Python literal evaluates: the source has
no comma between the adjacent literals of lines 676-677, so Python's
implicit string-literal concatenation merges them into the single entry
`"motherfuckersmotherfuckin"`, leaving 52 entries.  The words are the
source's own data, kept verbatim (its comment: included strictly for
research purposes). -/
def explicit_list : List String := [
  "arse",
  "ass",
  "asshole",
  "assholes",
  "bastard",
  "bastards",
  "bitch",
  "bitches",
  "bullshit",
  "cocaine",
  "cock",
  "coke",
  "damn",
  "dick",
  "drug",
  "drugs",
  "faggot",
  "faggots",
  "fentanyl",
  "fuck",
  "fucka",
  "fucked",
  "fucker",
  "fuckin",
  "fucking",
  "fucks",
  "goddamn",
  "hell",
  "horseshit",
  "mothafucka",
  "mothafuckas",
  "motherfucka",
  "motherfuckas",
  "motherfucker",
  "motherfuckersmotherfuckin",
  "motherfucking",
  "nigga",
  "niggas",
  "nigger",
  "niggers",
  "perc",
  "percocet",
  "pill",
  "pills",
  "pussy",
  "sex",
  "shit",
  "shits",
  "slut",
  "sluts",
  "whore",
  "whores"
]

/-- Translation of the counting loop of the Scorer (dataset_creation.py
lines 709-713):

    current_count = 0
    for word in explicit_list:
        current_count += lyrics.count(word)
-/
def explicitCount (toks : List String) : Nat :=
  explicit_list.foldl (fun acc w => acc + toks.count w) 0

/-- Translation of one iteration of the Scorer loop (dataset_creation.py
lines 708-718) for one album row, with the Treebank tokenizer (external
`nltk` library code, not part of this repository) abstracted as the
`tokenize` oracle:

    lyrics = treebank_tokenizer.tokenize(" ".join(row["lyrics"]).lower())
    for word in explicit_list: current_count += lyrics.count(word)
    if row["num_lyric_tracks"] > 0:
        explicit_average.append(current_count/row["num_lyric_tracks"])
    else:
        explicit_average.append(0.0)

The float division is modelled in `Rat`. -/
def scoreAlbum (tokenize : String → List String)
    (lyrics : List String) (num_lyric_tracks : Nat) : Nat × Rat :=
  let toks := tokenize (String.mk (pyLower (String.intercalate " " lyrics).data))
  let c := explicitCount toks
  (c, if num_lyric_tracks > 0 then (c : Rat) / (num_lyric_tracks : Rat) else 0)

theorem foldl_add_count (toks : List String) :
    ∀ (vocab : List String) (init : Nat),
      vocab.foldl (fun acc w => acc + toks.count w) init
        = init + (vocab.map (fun w => toks.count w)).sum
  | [], init => by simp
  | w :: rest, init => by
    rw [List.foldl_cons, foldl_add_count toks rest (init + toks.count w)]
    simp [Nat.add_assoc]

theorem sum_map_add_split (f g : String → Nat) :
    ∀ l : List String,
      (l.map (fun w => f w + g w)).sum = (l.map f).sum + (l.map g).sum
  | [] => by simp
  | w :: rest => by
    simp only [List.map_cons, List.sum_cons, sum_map_add_split f g rest]
    omega

theorem sum_map_ite_mem (t : String) :
    ∀ (vocab : List String), vocab.Nodup →
      (vocab.map (fun w => if t = w then 1 else 0)).sum
        = if t ∈ vocab then 1 else 0
  | [], _ => by simp
  | v :: vs, hnd => by
    have hv : vs.Nodup := (List.nodup_cons.mp hnd).2
    have hnv : v ∉ vs := (List.nodup_cons.mp hnd).1
    rw [List.map_cons, List.sum_cons, sum_map_ite_mem t vs hv]
    by_cases htv : t = v
    · subst htv
      simp [hnv]
    · simp [htv, List.mem_cons]

theorem sum_map_count_eq_length_filter (vocab : List String)
    (hnd : vocab.Nodup) :
    ∀ toks : List String,
      (vocab.map (fun w => toks.count w)).sum
        = (toks.filter (fun t => decide (t ∈ vocab))).length
  | [] => by simp
  | t :: rest => by
    have ih := sum_map_count_eq_length_filter vocab hnd rest
    have hmapeq : vocab.map (fun w => (t :: rest).count w)
        = vocab.map (fun w => rest.count w + if t = w then 1 else 0) := by
      apply List.map_congr_left
      intro w _
      rw [List.count_cons]
      simp [beq_iff_eq]
    rw [hmapeq, sum_map_add_split, ih, sum_map_ite_mem t vocab hnd]
    by_cases hmem : t ∈ vocab <;> simp [hmem, Nat.add_comm]

theorem explicit_list_nodup : explicit_list.Nodup := by decide

theorem explicitCount_eq_length_filter (toks : List String) :
    explicitCount toks
      = (toks.filter (fun t => decide (t ∈ explicit_list))).length := by
  rw [explicitCount, foldl_add_count, Nat.zero_add,
    sum_map_count_eq_length_filter explicit_list explicit_list_nodup]

/-- C8: the Scorer sets the count to the total number of token occurrences
drawn from the explicit vocabulary in the space-joined, lowercased,
tokenized lyrics, and the average to count / num_lyric_tracks when
num_lyric_tracks > 0 and to exactly 0 when it is 0; scoring an empty lyrics
list with zero tracks yields (0, 0) with no division error (stated for any
tokenizer that, like the Treebank tokenizer, returns no tokens on the empty
string). -/
theorem scorer_count_and_average (tokenize : String → List String)
    (lyrics : List String) (n : Nat) (hemp : tokenize "" = []) :
    (scoreAlbum tokenize lyrics n).1
      = ((tokenize (String.mk (pyLower (String.intercalate " " lyrics).data))).filter
          (fun t => decide (t ∈ explicit_list))).length
    ∧ (n > 0 →
        (scoreAlbum tokenize lyrics n).2 = ((scoreAlbum tokenize lyrics n).1 : Rat) / (n : Rat))
    ∧ (n = 0 → (scoreAlbum tokenize lyrics n).2 = 0)
    ∧ scoreAlbum tokenize [] 0 = (0, 0) := by
  refine ⟨explicitCount_eq_length_filter _, ?_, ?_, ?_⟩
  · intro hn
    simp [scoreAlbum, hn]
  · intro hn
    subst hn
    simp [scoreAlbum]
  · have h0 : String.mk (pyLower (String.intercalate " " ([] : List String)).data) = "" := rfl
    rw [scoreAlbum]
    rw [h0, hemp]
    simp [explicitCount]

/-- Tokenizer used in the Scorer witness: split on blanks, drop empty pieces
(it returns no tokens on the empty string, like the Treebank tokenizer). -/
def whitespaceTokenize : String → List String :=
  fun s => ((splitOnChar ' ' s.data).filter (fun t => !(t.isEmpty))).map String.mk

/-- C8 (witness): the Scorer characterization applied at a concrete
tokenizer, a one-track lyrics list and the empty album. -/
theorem scorer_count_and_average_witness :
    (scoreAlbum whitespaceTokenize ["fuck this shit"] 1).1
      = ((whitespaceTokenize (String.mk (pyLower
          (String.intercalate " " ["fuck this shit"]).data))).filter
          (fun t => decide (t ∈ explicit_list))).length
    ∧ (1 > 0 →
        (scoreAlbum whitespaceTokenize ["fuck this shit"] 1).2
          = ((scoreAlbum whitespaceTokenize ["fuck this shit"] 1).1 : Rat) / (1 : Rat))
    ∧ (1 = 0 → (scoreAlbum whitespaceTokenize ["fuck this shit"] 1).2 = 0)
    ∧ scoreAlbum whitespaceTokenize [] 0 = (0, 0) :=
  scorer_count_and_average whitespaceTokenize ["fuck this shit"] 1 (by decide)

/-- C10: the vocabulary contains the merged entry
`"motherfuckersmotherfuckin"` but neither `"motherfuckers"` nor
`"motherfuckin"`, and (because counting is by exact token equality)
occurrences of those two standalone tokens contribute nothing: deleting
them from any token list leaves `explicitCount` unchanged. -/
theorem merged_vocab_entry_never_counts :
    ("motherfuckers" ∉ explicit_list)
    ∧ ("motherfuckin" ∉ explicit_list)
    ∧ ("motherfuckersmotherfuckin" ∈ explicit_list)
    ∧ ∀ toks : List String,
        explicitCount (toks.filter (fun t =>
          !(t == "motherfuckers") && !(t == "motherfuckin")))
          = explicitCount toks := by
  refine ⟨by decide, by decide, by decide, ?_⟩
  intro toks
  rw [explicitCount_eq_length_filter, explicitCount_eq_length_filter,
    List.filter_filter]
  congr 1
  apply List.filter_congr
  intro t _
  cases hd : decide (t ∈ explicit_list) with
  | false => simp
  | true =>
    have hmem : t ∈ explicit_list := of_decide_eq_true hd
    have hall : explicit_list.all (fun w =>
        !(w == "motherfuckers") && !(w == "motherfuckin")) = true := by decide
    have := List.all_eq_true.mp hall t hmem
    simp at this
    simp [this]

/-- C10 (witness): the contribution statement applied at the concrete token
list holding exactly the two missing words. -/
theorem merged_vocab_entry_never_counts_witness :
    explicitCount ((["motherfuckers", "motherfuckin"] : List String).filter (fun t =>
      !(t == "motherfuckers") && !(t == "motherfuckin")))
      = explicitCount ["motherfuckers", "motherfuckin"] :=
  merged_vocab_entry_never_counts.2.2.2 ["motherfuckers", "motherfuckin"]

/-- Index of the last `]` within the newline-free initial segment of the
input — the end of the greedy match of `\[.*\]` once a `[` has been seen
(`.` does not cross newlines, `.*` is greedy and backtracks to the last
possible `]`). -/
def lastCloseIdx : List Char → Option Nat
  | [] => none
  | c :: rest =>
    if c = '\n' then none
    else
      match lastCloseIdx rest with
      | some j => some (j + 1)
      | none => if c = ']' then some 0 else none

/-- Fuelled scanner for `re.sub("\[.*\]", "", s)` (dataset_creation.py line
87): scan left to right; at a `[`, if the newline-free segment after it
still holds a `]`, delete through the last such `]` (greedy match, empty
replacement) and continue after it; a `[` with no closing `]` does not
match and is kept.  The fuel argument only makes the recursion structural;
it is always at least the input length, which the scan never exhausts. -/
def reSubBracketsGo : Nat → List Char → List Char
  | 0, cs => cs
  | _ + 1, [] => []
  | fuel + 1, c :: rest =>
    if c = '[' then
      match lastCloseIdx rest with
      | some j => reSubBracketsGo fuel (rest.drop (j + 1))
      | none => c :: reSubBracketsGo fuel rest
    else c :: reSubBracketsGo fuel rest

/-- Translation of `re.sub("\[.*\]", "", s)`. -/
def reSubBrackets (cs : List Char) : List Char := reSubBracketsGo cs.length cs

/-- Translation of the pure core of `retrieve_lyrics` (dataset_creation.py
lines 79-88), applied to the text contents of the selected `.lyrics`
elements:

    lyrics = ""
    if len(lyric_div) > 0:
        for elem in lyric_div:
            lyrics += re.sub("\[.*\]", "", elem.text)
-/
def retrieve_lyrics_clean (divTexts : List String) : String :=
  if divTexts.length > 0 then
    String.mk (divTexts.foldl (fun acc t => acc ++ reSubBrackets t.data) [])
  else ""

/-- C9: a lyrics container holding `"[Chorus] I love you"` extracts to
exactly `" I love you"` — the bracketed annotated span is removed with no
replacement character inserted and the leading space is preserved. -/
theorem retrieve_lyrics_chorus_example :
    retrieve_lyrics_clean ["[Chorus] I love you"] = " I love you"
      ∧ reSubBrackets "[Chorus] I love you".data = " I love you".data := by
  refine ⟨?_, ?_⟩ <;> decide

/-- Condition under which Python `str.strip()` is a no-op: no leading and no
trailing whitespace character. -/
def noEdgeWhitespace (cs : List Char) : Bool :=
  cs.head?.all (fun c => !(isPySpace c)) && cs.getLast?.all (fun c => !(isPySpace c))

theorem ampToAnd_id (cs : List Char) (h : ∀ c ∈ cs, isPunct c = false) :
    ampToAnd cs = cs := by
  induction cs with
  | nil => rfl
  | cons c rest ih =>
    have hc := h c (List.mem_cons_self c rest)
    have hcne : c ≠ '&' := by
      intro hce
      rw [hce] at hc
      exact absurd hc (by decide)
    have ih2 := ih (fun d hd => h d (List.mem_cons_of_mem c hd))
    simp [ampToAnd] at ih2 ⊢
    simp [hcne, ih2]

theorem delPunct_id (cs : List Char) (h : ∀ c ∈ cs, isPunct c = false) :
    delPunct cs = cs :=
  List.filter_eq_self.mpr (fun a ha => by simp [h a ha])

theorem blankPunct_id (cs : List Char) (h : ∀ c ∈ cs, isPunct c = false) :
    blankPunct cs = cs := by
  induction cs with
  | nil => rfl
  | cons c rest ih =>
    have hc := h c (List.mem_cons_self c rest)
    have ih2 := ih (fun d hd => h d (List.mem_cons_of_mem c hd))
    simp [blankPunct] at ih2 ⊢
    simp [hc, ih2]

theorem dropWhile_id_of_head (p : Char → Bool) (cs : List Char)
    (h : cs.head?.all (fun c => !(p c)) = true) : cs.dropWhile p = cs := by
  cases cs with
  | nil => rfl
  | cons c rest =>
    simp only [List.head?_cons, Option.all_some] at h
    rw [List.dropWhile_cons]
    simp at h
    simp [h]

theorem pyStrip_id (cs : List Char) (h : noEdgeWhitespace cs = true) :
    pyStrip cs = cs := by
  unfold noEdgeWhitespace at h
  rw [Bool.and_eq_true] at h
  have h1 := h.1
  have h2 := h.2
  unfold pyStrip
  rw [dropWhile_id_of_head isPySpace cs h1,
    dropWhile_id_of_head isPySpace cs.reverse (by rw [List.head?_reverse]; exact h2),
    List.reverse_reverse]

theorem slugB_eq_slugA_of_plain (cs : List Char)
    (hp : ∀ c ∈ cs, isPunct c = false) (he : noEdgeWhitespace cs = true) :
    slugBChars cs = slugAChars cs := by
  unfold slugBChars slugAChars
  rw [ampToAnd_id cs hp, delPunct_id cs hp, pyStrip_id cs he, blankPunct_id cs hp]

/-- C6 (counterexample): `"The Weeknd "` carries a trailing blank and no
punctuation character, yet the two policies disagree — Policy B's
`.strip()` removes the blank while Policy A's split keeps an empty token,
producing a trailing hyphen. -/
theorem policyAB_differ_on_trailing_space :
    (∀ c ∈ ("The Weeknd " : String).data, isPunct c = false)
      ∧ (∀ c ∈ ("Dawn" : String).data, isPunct c = false)
      ∧ policyA_url "The Weeknd " "Dawn" ≠ policyB_url "The Weeknd " "Dawn"
      ∧ policyA_url "The Weeknd " "Dawn"
          = "http://genius.com/albums/The-weeknd-/Dawn" := by
  refine ⟨?_, ?_, ?_, ?_⟩ <;> decide

/-- C6 (amended): for every (artist, title) pair in which neither string
contains a punctuation character NOR leading/trailing whitespace, Policy A
and Policy B synthesize identical URLs (the further restriction is forced by
Policy B's `.strip()`, which Policy A lacks). -/
theorem policyAB_agree_no_punct_no_edge_space (artist title : String)
    (hpa : ∀ c ∈ artist.data, isPunct c = false)
    (hpt : ∀ c ∈ title.data, isPunct c = false)
    (hea : noEdgeWhitespace artist.data = true)
    (het : noEdgeWhitespace title.data = true) :
    policyA_url artist title = policyB_url artist title := by
  unfold policyA_url policyB_url
  rw [slugB_eq_slugA_of_plain artist.data hpa hea,
    slugB_eq_slugA_of_plain title.data hpt het]

/-- C6 (witness): the agreement applied at a concrete punctuation-free,
edge-whitespace-free pair. -/
theorem policyAB_agree_no_punct_no_edge_space_witness :
    policyA_url "The Weeknd" "After Hours" = policyB_url "The Weeknd" "After Hours" :=
  policyAB_agree_no_punct_no_edge_space "The Weeknd" "After Hours"
    (by decide) (by decide) (by decide) (by decide)

theorem char_toNat_ofNat_valid (n : Nat) (h : n.isValidChar) :
    (Char.ofNat n).toNat = n := by
  unfold Char.ofNat
  rw [dif_pos h]
  unfold Char.ofNatAux Char.toNat
  rfl

theorem toLower_ne_hyphen (c : Char) (h : c ≠ '-') : Char.toLower c ≠ '-' := by
  intro hc
  by_cases hr : c.toNat ≥ 65 ∧ c.toNat ≤ 90
  · have he : Char.toLower c = Char.ofNat (c.toNat + 32) := by
      unfold Char.toLower
      exact if_pos hr
    have hv : (c.toNat + 32).isValidChar := by
      left
      omega
    have hn := char_toNat_ofNat_valid (c.toNat + 32) hv
    rw [he] at hc
    rw [hc] at hn
    have h45 : ('-').toNat = 45 := by decide
    omega
  · have he : Char.toLower c = c := by
      unfold Char.toLower
      exact if_neg hr
    rw [he] at hc
    exact h hc

theorem toUpper_ne_hyphen (c : Char) (h : c ≠ '-') : Char.toUpper c ≠ '-' := by
  intro hc
  by_cases hr : c.toNat ≥ 97 ∧ c.toNat ≤ 122
  · have he : Char.toUpper c = Char.ofNat (c.toNat - 32) := by
      unfold Char.toUpper
      exact if_pos hr
    have hv : (c.toNat - 32).isValidChar := by
      left
      omega
    have hn := char_toNat_ofNat_valid (c.toNat - 32) hv
    rw [he] at hc
    rw [hc] at hn
    have h45 : ('-').toNat = 45 := by decide
    omega
  · have he : Char.toUpper c = c := by
      unfold Char.toUpper
      exact if_neg hr
    rw [he] at hc
    exact h hc

theorem splitOnChar_ne_nil (sep : Char) (cs : List Char) :
    splitOnChar sep cs ≠ [] := by
  cases cs with
  | nil => simp [splitOnChar]
  | cons c rest =>
    unfold splitOnChar
    cases splitOnChar sep rest with
    | nil => simp
    | cons t ts =>
      by_cases hc : c = sep <;> simp [hc]

theorem splitOnChar_cons_eq (sep c : Char) (rest t : List Char)
    (ts : List (List Char)) (h : splitOnChar sep rest = t :: ts) :
    splitOnChar sep (c :: rest)
      = if c = sep then [] :: t :: ts else (c :: t) :: ts := by
  unfold splitOnChar
  rw [h]

theorem mem_splitOnChar_subset (sep : Char) :
    ∀ (cs t : List Char), t ∈ splitOnChar sep cs → ∀ c ∈ t, c ∈ cs
  | [], t, ht => by
    simp [splitOnChar] at ht
    subst ht
    intro c hc
    exact absurd hc (List.not_mem_nil c)
  | a :: rest, t, ht => by
    intro c hc
    cases h : splitOnChar sep rest with
    | nil => exact absurd h (splitOnChar_ne_nil sep rest)
    | cons t' ts' =>
      rw [splitOnChar_cons_eq sep a rest t' ts' h] at ht
      by_cases ha : a = sep
      · rw [if_pos ha] at ht
        rcases List.mem_cons.mp ht with h1 | h2
        · subst h1
          exact absurd hc (List.not_mem_nil c)
        · have hin := mem_splitOnChar_subset sep rest t (h ▸ h2) c hc
          exact List.mem_cons_of_mem a hin
      · rw [if_neg ha] at ht
        rcases List.mem_cons.mp ht with h1 | h2
        · subst h1
          rcases List.mem_cons.mp hc with h3 | h4
          · subst h3
            exact List.mem_cons_self c rest
          · have ht' : t' ∈ splitOnChar sep rest := by
              rw [h]
              exact List.mem_cons_self t' ts'
            have hin := mem_splitOnChar_subset sep rest t' ht' c h4
            exact List.mem_cons_of_mem a hin
        · have ht2 : t ∈ splitOnChar sep rest := by
            rw [h]
            exact List.mem_cons_of_mem t' h2
          have hin := mem_splitOnChar_subset sep rest t ht2 c hc
          exact List.mem_cons_of_mem a hin

theorem splitOnChar_of_no_sep (sep : Char) :
    ∀ (t : List Char), (∀ c ∈ t, c ≠ sep) → splitOnChar sep t = [t]
  | [], _ => rfl
  | c :: rest, h => by
    have hrest := splitOnChar_of_no_sep sep rest
      (fun d hd => h d (List.mem_cons_of_mem c hd))
    have hc : c ≠ sep := h c (List.mem_cons_self c rest)
    rw [splitOnChar_cons_eq sep c rest rest [] hrest, if_neg hc]

theorem splitOnChar_append_sep (sep : Char) :
    ∀ (t rest : List Char), (∀ c ∈ t, c ≠ sep) →
      splitOnChar sep (t ++ sep :: rest) = t :: splitOnChar sep rest
  | [], rest, _ => by
    show splitOnChar sep (sep :: rest) = [] :: splitOnChar sep rest
    cases h : splitOnChar sep rest with
    | nil => exact absurd h (splitOnChar_ne_nil sep rest)
    | cons t' ts' =>
      rw [splitOnChar_cons_eq sep sep rest t' ts' h, if_pos rfl]
  | c :: t, rest, h => by
    have ih := splitOnChar_append_sep sep t rest
      (fun d hd => h d (List.mem_cons_of_mem c hd))
    have hc : c ≠ sep := h c (List.mem_cons_self c t)
    show splitOnChar sep (c :: (t ++ sep :: rest)) = (c :: t) :: splitOnChar sep rest
    rw [splitOnChar_cons_eq sep c (t ++ sep :: rest) t (splitOnChar sep rest) ih,
      if_neg hc]

theorem splitOnChar_joinSep (sep : Char) :
    ∀ (ts : List (List Char)), ts ≠ [] →
      (∀ t ∈ ts, ∀ c ∈ t, c ≠ sep) →
      splitOnChar sep (joinSep sep ts) = ts
  | [], hne, _ => absurd rfl hne
  | [t], _, h => by
    show splitOnChar sep (joinSep sep [t]) = [t]
    rw [joinSep]
    exact splitOnChar_of_no_sep sep t (h t (List.mem_cons_self t []))
  | t :: t1 :: ts, _, h => by
    have ih := splitOnChar_joinSep sep (t1 :: ts) (by simp)
      (fun u hu => h u (List.mem_cons_of_mem t hu))
    show splitOnChar sep (t ++ sep :: joinSep sep (t1 :: ts)) = t :: t1 :: ts
    rw [splitOnChar_append_sep sep t _ (h t (List.mem_cons_self t _)), ih]

theorem map_joinSep (f : Char → Char) (sep : Char) (hf : f sep = sep) :
    ∀ ts : List (List Char),
      (joinSep sep ts).map f = joinSep sep (ts.map (List.map f))
  | [] => rfl
  | [t] => rfl
  | t :: t1 :: ts => by
    have ih := map_joinSep f sep hf (t1 :: ts)
    show (t ++ sep :: joinSep sep (t1 :: ts)).map f
      = t.map f ++ sep :: joinSep sep ((t1 :: ts).map (List.map f))
    rw [List.map_append, List.map_cons, hf, ih]

theorem pyCapitalize_joinSep (t : List Char) (ts : List (List Char)) (ht : t ≠ []) :
    pyCapitalize (joinSep '-' (t :: ts))
      = joinSep '-' (pyCapitalize t :: ts.map (List.map Char.toLower)) := by
  cases t with
  | nil => exact absurd rfl ht
  | cons c t0 =>
    cases ts with
    | nil => rfl
    | cons t1 ts' =>
      show pyCapitalize ((c :: t0) ++ '-' :: joinSep '-' (t1 :: ts'))
        = pyCapitalize (c :: t0) ++ '-' :: joinSep '-' ((t1 :: ts').map (List.map Char.toLower))
      have hl : ('-' :: joinSep '-' (t1 :: ts')).map Char.toLower
          = '-' :: joinSep '-' ((t1 :: ts').map (List.map Char.toLower)) := by
        rw [List.map_cons, map_joinSep Char.toLower '-' (by decide)]
        rw [show Char.toLower '-' = '-' from by decide]
      simp only [pyCapitalize, List.cons_append, List.map_append, hl]

theorem slugA_source_chars_ne_hyphen (s : String) :
    ∀ c ∈ pyLower (blankPunct s.data), c ≠ '-' := by
  intro c hc
  obtain ⟨b, hb, rfl⟩ := List.mem_map.mp hc
  obtain ⟨a, _, rfl⟩ := List.mem_map.mp hb
  by_cases hpa : isPunct a = true
  · rw [if_pos hpa]
    decide
  · rw [if_neg hpa]
    apply toLower_ne_hyphen
    intro hae
    rw [hae] at hpa
    exact hpa (by decide)

/-- C5 (counterexample): for title `"Hey!!"` Policy A produces the slug
`"Hey--"` — the two punctuation characters become blanks, `split(" ")`
keeps the two resulting empty tokens, and the join materializes them as a
doubled trailing hyphen: an empty token segment, refuting the claim that
Policy A joins only non-empty tokens and never yields an empty segment. -/
theorem slugA_empty_segment_on_hey :
    slugAChars "Hey!!".data = "Hey--".data
      ∧ ([] : List Char) ∈ splitOnChar '-' (slugAChars "Hey!!".data)
      ∧ (slugAChars "Hey!!".data).getLast? = some '-' := by
  refine ⟨?_, ?_, ?_⟩ <;> decide

/-- C5 (amended): Policy A joins ALL space-split tokens, empty ones
included, so a slug contains an empty hyphen segment whenever the blanked,
lowercased input splits with an empty token (leading, trailing or doubled
blanks, e.g. from edge or adjacent punctuation); whenever no token is
empty — the case the claim describes — the slug indeed has no empty
segment (no leading, trailing, or doubled hyphen). -/
theorem slugA_no_empty_segment (s : String)
    (h : ([] : List Char) ∉ splitOnChar ' ' (pyLower (blankPunct s.data))) :
    ([] : List Char) ∉ splitOnChar '-' (slugAChars s.data) := by
  cases htk : splitOnChar ' ' (pyLower (blankPunct s.data)) with
  | nil => exact absurd htk (splitOnChar_ne_nil _ _)
  | cons t0 rest =>
    rw [htk] at h
    have ht0ne : t0 ≠ [] := fun he => h (he ▸ List.mem_cons_self t0 rest)
    have hnh : ∀ t ∈ t0 :: rest, ∀ c ∈ t, c ≠ '-' := by
      intro t ht c hc
      exact slugA_source_chars_ne_hyphen s c
        (mem_splitOnChar_subset ' ' (pyLower (blankPunct s.data)) t (htk ▸ ht) c hc)
    have hslug : slugAChars s.data
        = joinSep '-' (pyCapitalize t0 :: rest.map (List.map Char.toLower)) := by
      rw [slugAChars, htk, pyCapitalize_joinSep t0 rest ht0ne]
    have hnh2 : ∀ t ∈ pyCapitalize t0 :: rest.map (List.map Char.toLower),
        ∀ c ∈ t, c ≠ '-' := by
      intro t ht c hc
      rcases List.mem_cons.mp ht with h1 | h2
      · subst h1
        cases ht0 : t0 with
        | nil => exact absurd ht0 ht0ne
        | cons d t0' =>
          rw [ht0] at hc
          rcases List.mem_cons.mp hc with h3 | h4
          · subst h3
            exact toUpper_ne_hyphen d
              (hnh t0 (List.mem_cons_self t0 rest) d (ht0 ▸ List.mem_cons_self d t0'))
          · obtain ⟨e, he, rfl⟩ := List.mem_map.mp h4
            exact toLower_ne_hyphen e
              (hnh t0 (List.mem_cons_self t0 rest) e (ht0 ▸ List.mem_cons_of_mem d he))
      · obtain ⟨u, hu, rfl⟩ := List.mem_map.mp h2
        obtain ⟨e, he, rfl⟩ := List.mem_map.mp hc
        exact toLower_ne_hyphen e (hnh u (List.mem_cons_of_mem t0 hu) e he)
    rw [hslug, splitOnChar_joinSep '-' (pyCapitalize t0 :: rest.map (List.map Char.toLower))
      (by simp) hnh2]
    intro hmem
    rcases List.mem_cons.mp hmem with h1 | h2
    · cases ht0 : t0 with
      | nil => exact ht0ne ht0
      | cons d t0' =>
        rw [ht0, pyCapitalize] at h1
        exact absurd h1.symm (by simp)
    · obtain ⟨u, hu, hequ⟩ := List.mem_map.mp h2
      have hue : u = [] := List.map_eq_nil.mp hequ
      subst hue
      exact h (List.mem_cons_of_mem t0 hu)

/-- C5 (witness): the amended no-empty-segment statement applied at a
concrete input whose normalized form has only non-empty tokens. -/
theorem slugA_no_empty_segment_witness :
    ([] : List Char) ∉ splitOnChar '-' (slugAChars "Abc def".data) :=
  slugA_no_empty_segment "Abc def" (by decide)
